import Mathlib

/-!
# Verification of the malicious-URL detector core (src/api/app.py)

Shallow embedding of the `SVMModel` class and the `/api/train` handler.
Strings are Lean `String`s handled through their `List Char` data;
Python floats are modelled as exact rationals (`ℚ`), with Python's
`round(x, 3)` modelled by `round3` below; the ambient random draw
`random.uniform(-0.02, 0.02)` is modelled by an explicit jitter
argument, and wall-clock time / the persistence file by explicit
timestamp and saved-state values.
-/

namespace UrlDetector

/-- Python `needle in hay` on strings: `needle` occurs as a contiguous
substring of `hay`.  Implemented as: some suffix of `hay` has `needle`
as a prefix. -/
def strContains (hay needle : String) : Bool :=
  hay.data.tails.any fun t => needle.data.isPrefixOf t

/-- Python `s.lower()` (character-wise lowering; all tokens compared
against are ASCII). -/
def lowerString (s : String) : String :=
  ⟨s.data.map Char.toLower⟩

/-- Python `s.startswith(p)`. -/
def startswith (s p : String) : Bool :=
  p.data.isPrefixOf s.data

/-- The suspicious-token set of `SVMModel.predict` (app.py line 91). -/
def suspiciousTokens : List String := ["phishing", "malware", "malicious", "hack"]

/-- The trusted-domain token set of `SVMModel.predict` (app.py line 93). -/
def trustedTokens : List String := ["example.com", "google.com", "github.com", "wikipedia.org"]

/-- The score accumulation of `SVMModel.predict` (app.py lines 87–104),
mirrored statement by statement (`score += …` becomes a rebinding let). -/
def predictScore (url : String) : Int :=
  let url_lower := lowerString url
  let score : Int := 0
  let score := if suspiciousTokens.any (fun w => strContains url_lower w) then score + 3 else score
  let score := if trustedTokens.any (fun w => strContains url_lower w) then score - 2 else score
  let score := if !(startswith url "https://") then score + 1 else score
  let score := if url.data.count '.' > 3 then score + 1 else score
  let score := if url.data.count '/' > 5 then score + 1 else score
  let score := if url.data.contains '@' then score + 2 else score
  let score := if url.data.length > 100 then score + 1 else score
  score

/-- Python `round(x, 3)`.  On every value `predict` actually rounds,
`x * 1000` is an integer, so the tie-breaking convention is irrelevant;
we use Mathlib's `round`. -/
def round3 (x : ℚ) : ℚ :=
  ((round (x * 1000) : ℤ) : ℚ) / 1000

/-- The record returned by `SVMModel.predict` (app.py lines 110–121). -/
structure Classification where
  url : String
  prediction : String
  confidence : ℚ
  is_malicious : Bool
  probability_malicious : ℚ
  probability_legitimate : ℚ
  features_count : Nat
  recommendation : String
  risk_level : String
  risk_score : Int
  deriving Repr, DecidableEq

/-- `SVMModel.predict` (app.py lines 85–121). -/
def predict (url : String) : Classification :=
  let score := predictScore url
  let is_malicious : Bool := decide (score > 1)
  let base_confidence : ℚ := 0.7 + score * 0.05
  let confidence : ℚ := min 0.98 (max 0.6 base_confidence)
  { url := url
    prediction := if is_malicious then "MALICIOSA" else "LEGÍTIMA"
    confidence := round3 confidence
    is_malicious := is_malicious
    probability_malicious := round3 (if is_malicious then confidence else 1 - confidence)
    probability_legitimate := round3 (if is_malicious then 1 - confidence else confidence)
    features_count := 8
    recommendation :=
      if is_malicious then "URL sospechosa detectada - Evite compartir información personal"
      else "URL verificada como segura - Puede proceder con confianza"
    risk_level := if score > 3 then "ALTO" else if score > 1 then "MEDIO" else "BAJO"
    risk_score := score }

/-! ## Rule-by-rule decomposition of the score (for the spec's §4.1 table) -/

/-- Rule 1: +3 for a suspicious token in the lower-cased URL. -/
def rule1 (url : String) : Int :=
  if suspiciousTokens.any (fun w => strContains (lowerString url) w) then 3 else 0

/-- Rule 2: −2 for a trusted-domain token in the lower-cased URL. -/
def rule2 (url : String) : Int :=
  if trustedTokens.any (fun w => strContains (lowerString url) w) then -2 else 0

/-- Rule 3: +1 when the URL does not start with "https://". -/
def rule3 (url : String) : Int :=
  if !(startswith url "https://") then 1 else 0

/-- Rule 4: +1 when the URL has more than 3 dots. -/
def rule4 (url : String) : Int :=
  if url.data.count '.' > 3 then 1 else 0

/-- Rule 5: +1 when the URL has more than 5 slashes. -/
def rule5 (url : String) : Int :=
  if url.data.count '/' > 5 then 1 else 0

/-- Rule 6: +2 when the URL contains '@'. -/
def rule6 (url : String) : Int :=
  if url.data.contains '@' then 2 else 0

/-- Rule 7: +1 when the URL is longer than 100 characters. -/
def rule7 (url : String) : Int :=
  if url.data.length > 100 then 1 else 0

/-- The seven independent rule contributions, in source order. -/
def ruleContributions (url : String) : List Int :=
  [rule1 url, rule2 url, rule3 url, rule4 url, rule5 url, rule6 url, rule7 url]

/-- The spec's confidence formula `clamp(0.7 + score*0.05, 0.6, 0.98)`,
as a function of the integer score alone. -/
def confFromScore (s : Int) : ℚ :=
  min 0.98 (max 0.6 (0.7 + s * 0.05))

/-! ## Model state (the `SVMModel` instance fields and `update_metrics`) -/

/-- The four quality numbers held in `SVMModel.metrics`; the source's
`recall` key is written `recall'` because `recall` is a Lean command. -/
structure Metrics where
  accuracy : ℚ
  precision : ℚ
  recall' : ℚ
  f1_score : ℚ
  deriving Repr, DecidableEq

/-- The mutable fields set in `SVMModel.__init__` (app.py lines 59–68). -/
structure Model where
  is_trained : Bool
  n_features : Nat
  kernel : String
  metrics : Metrics
  deriving Repr, DecidableEq

/-- The state created by `SVMModel.__init__`. -/
def initModel : Model :=
  { is_trained := true
    n_features := 20
    kernel := "rbf"
    metrics := ⟨0.92, 0.89, 0.91, 0.90⟩ }

/-- The `base_metrics` dict of `SVMModel.update_metrics` (app.py lines 129–134),
as an association list in source order. -/
def base_metrics : List (String × Metrics) :=
  [("rbf", ⟨0.92, 0.89, 0.91, 0.90⟩),
   ("linear", ⟨0.88, 0.85, 0.87, 0.86⟩),
   ("poly", ⟨0.90, 0.87, 0.89, 0.88⟩),
   ("sigmoid", ⟨0.85, 0.82, 0.84, 0.83⟩)]

/-- The per-field clamp `min(0.99, max(0.7, v))` of app.py line 139. -/
def clampMetric (v : ℚ) : ℚ :=
  min 0.99 (max 0.7 v)

/-- The per-field jitter addition of app.py line 138; the random draws
`random.uniform(-0.02, 0.02)` are the fields of `j`. -/
def addJitter (b j : Metrics) : Metrics :=
  ⟨b.accuracy + j.accuracy, b.precision + j.precision,
   b.recall' + j.recall', b.f1_score + j.f1_score⟩

/-- The clamp comprehension of app.py line 139 applied to all four fields. -/
def clampAll (v : Metrics) : Metrics :=
  ⟨clampMetric v.accuracy, clampMetric v.precision,
   clampMetric v.recall', clampMetric v.f1_score⟩

/-- `SVMModel.update_metrics` (app.py lines 127–140): state passing makes
the mutation of `self.metrics` explicit; the returned pair is the new
state and the returned `self.metrics` value. -/
def update_metrics (m : Model) (kernel : String) (j : Metrics) : Model × Metrics :=
  match base_metrics.lookup kernel with
  | some b =>
      let newMetrics := clampAll (addJitter b j)
      ({ m with metrics := newMetrics }, newMetrics)
  | none => (m, m.metrics)

/-- `SVMModel.get_metrics` (app.py lines 123–125). -/
def get_metrics (m : Model) : Metrics :=
  m.metrics

/-- The record `joblib.dump`ed by the train handler (app.py lines 285–290). -/
structure SavedState where
  kernel : String
  C : ℚ
  metrics : Metrics
  timestamp : ℚ
  deriving Repr, DecidableEq

/-- The JSON body returned by the train handler (app.py lines 292–297). -/
structure TrainResponse where
  message : String
  kernel : String
  C : ℚ
  metrics : Metrics
  deriving Repr, DecidableEq

/-- The `/api/train` handler `train_model` (app.py lines 270–297):
updates the metrics, sets `model.kernel`, persists the full state record
and returns the response.  `now` stands for `time.time()`. -/
def train_model (m : Model) (kernel : String) (C : ℚ) (j : Metrics) (now : ℚ) :
    Model × SavedState × TrainResponse :=
  let pair := update_metrics m kernel j
  let m2 := { pair.1 with kernel := kernel }
  (m2,
   { kernel := kernel, C := C, metrics := pair.2, timestamp := now },
   { message := "Modelo entrenado exitosamente", kernel := kernel, C := C, metrics := pair.2 })

/-! ## Projection lemmas for `predict` -/

lemma predict_url (u : String) : (predict u).url = u := rfl

lemma predict_risk_score (u : String) : (predict u).risk_score = predictScore u := rfl

lemma predict_is_malicious (u : String) :
    (predict u).is_malicious = decide (predictScore u > 1) := rfl

lemma predict_risk_level (u : String) :
    (predict u).risk_level =
      (if predictScore u > 3 then "ALTO" else if predictScore u > 1 then "MEDIO" else "BAJO") := rfl

lemma predict_confidence_eq (u : String) :
    (predict u).confidence = round3 (confFromScore (predictScore u)) := rfl

lemma predict_prob_mal (u : String) :
    (predict u).probability_malicious =
      round3 (if decide (predictScore u > 1) then confFromScore (predictScore u)
              else 1 - confFromScore (predictScore u)) := rfl

lemma predict_prob_leg (u : String) :
    (predict u).probability_legitimate =
      round3 (if decide (predictScore u > 1) then 1 - confFromScore (predictScore u)
              else confFromScore (predictScore u)) := rfl

/-! ## Arithmetic facts about rounding and the confidence formula -/

lemma round3_int_div (n : ℤ) : round3 ((n : ℚ) / 1000) = (n : ℚ) / 1000 := by
  unfold round3
  rw [div_mul_cancel₀ _ (by norm_num : (1000 : ℚ) ≠ 0), round_intCast]

lemma confFromScore_num (s : ℤ) : ∃ n : ℤ, confFromScore s = (n : ℚ) / 1000 := by
  unfold confFromScore
  rcases le_total (0.6 : ℚ) (0.7 + s * 0.05) with h | h
  · rw [max_eq_right h]
    rcases le_total (0.98 : ℚ) (0.7 + s * 0.05) with h2 | h2
    · rw [min_eq_left h2]
      exact ⟨980, by norm_num⟩
    · rw [min_eq_right h2]
      refine ⟨700 + 50 * s, ?_⟩
      push_cast
      ring_nf
  · rw [max_eq_left h, min_eq_right (by norm_num : (0.6 : ℚ) ≤ 0.98)]
    exact ⟨600, by norm_num⟩

lemma round3_confFromScore (s : ℤ) : round3 (confFromScore s) = confFromScore s := by
  obtain ⟨n, hn⟩ := confFromScore_num s
  rw [hn, round3_int_div]

lemma round3_one_sub_confFromScore (s : ℤ) :
    round3 (1 - confFromScore s) = 1 - confFromScore s := by
  obtain ⟨n, hn⟩ := confFromScore_num s
  have h : (1 : ℚ) - (n : ℚ) / 1000 = ((1000 - n : ℤ) : ℚ) / 1000 := by
    push_cast
    ring
  rw [hn, h, round3_int_div]

lemma confFromScore_le (s : ℤ) : confFromScore s ≤ 0.98 :=
  min_le_left _ _

lemma confFromScore_ge (s : ℤ) : 0.6 ≤ confFromScore s :=
  le_min (by norm_num) (le_max_left _ _)

lemma confFromScore_mono : Monotone confFromScore := by
  intro a b hab
  unfold confFromScore
  have hc : ((a : ℚ)) ≤ (b : ℚ) := by exact_mod_cast hab
  have h : (0.7 : ℚ) + a * 0.05 ≤ 0.7 + b * 0.05 := by nlinarith
  exact min_le_min le_rfl (max_le_max le_rfl h)

lemma clampMetric_bounds (v : ℚ) : 0.7 ≤ clampMetric v ∧ clampMetric v ≤ 0.99 :=
  ⟨le_min (by norm_num) (le_max_left _ _), min_le_left _ _⟩

/-! ## The score as a sum of the seven rule contributions -/

lemma predictScore_eq_sum (u : String) :
    predictScore u =
      rule1 u + rule2 u + rule3 u + rule4 u + rule5 u + rule6 u + rule7 u := by
  unfold predictScore rule1 rule2 rule3 rule4 rule5 rule6 rule7
  dsimp only
  split <;> split <;> split <;> split <;> split <;> split <;> split <;> ring

/-! ## Substring facts -/

lemma strContains_iff (hay needle : String) :
    strContains hay needle = true ↔ needle.data <:+: hay.data := by
  simp only [strContains, List.any_eq_true]
  constructor
  · rintro ⟨t, ht, hp⟩
    rw [List.mem_tails] at ht
    simp only [ List.isPrefixOf_iff_prefix] at hp
    obtain ⟨r, hr⟩ := hp
    obtain ⟨w, hw⟩ := ht
    exact ⟨w, r, by rw [← hw, ← hr, List.append_assoc]⟩
  · rintro ⟨s, t, hst⟩
    refine ⟨needle.data ++ t, ?_, ?_⟩
    · rw [List.mem_tails]
      exact ⟨s, by rw [← hst, List.append_assoc]⟩
    · simp

lemma strContains_toLower (u w : String)
    (hw : w.data.map Char.toLower = w.data)
    (h : strContains u w = true) :
    strContains (lowerString u) w = true := by
  rw [strContains_iff] at h ⊢
  have hmap := List.IsInfix.map Char.toLower h
  rw [hw] at hmap
  exact hmap

/-! ## Lookup facts for the kernel table -/

lemma lookup_rbf : base_metrics.lookup "rbf" = some ⟨0.92, 0.89, 0.91, 0.90⟩ := by
  simp [base_metrics]

lemma lookup_linear : base_metrics.lookup "linear" = some ⟨0.88, 0.85, 0.87, 0.86⟩ := by
  have h1 : ("linear" == "rbf") = false := by decide
  simp [base_metrics, List.lookup_cons, h1]

lemma lookup_poly : base_metrics.lookup "poly" = some ⟨0.90, 0.87, 0.89, 0.88⟩ := by
  have h1 : ("poly" == "rbf") = false := by decide
  have h2 : ("poly" == "linear") = false := by decide
  simp [base_metrics, List.lookup_cons, h1, h2]

lemma lookup_sigmoid : base_metrics.lookup "sigmoid" = some ⟨0.85, 0.82, 0.84, 0.83⟩ := by
  have h1 : ("sigmoid" == "rbf") = false := by decide
  have h2 : ("sigmoid" == "linear") = false := by decide
  have h3 : ("sigmoid" == "poly") = false := by decide
  simp [base_metrics, List.lookup_cons, h1, h2, h3]

lemma lookup_none_of_unknown (k : String)
    (h : k ∉ (["rbf", "linear", "poly", "sigmoid"] : List String)) :
    base_metrics.lookup k = none := by
  simp only [List.mem_cons, List.not_mem_nil, or_false, not_or] at h
  obtain ⟨h1, h2, h3, h4⟩ := h
  simp [base_metrics, List.lookup, beq_eq_false_iff_ne.mpr h1, beq_eq_false_iff_ne.mpr h2,
    beq_eq_false_iff_ne.mpr h3, beq_eq_false_iff_ne.mpr h4]

/-! ## Claim theorems -/

/-- Claim C1: for every URL string `u`, the risk score computed by
`predict` equals the sum of the seven independent rule contributions of
§4.1, and this sum is independent of the order in which the rules are
evaluated (it is invariant under any permutation of the contribution
list). -/
theorem predict_riskScore_rule_sum (u : String) (l : List Int)
    (hl : l.Perm (ruleContributions u)) :
    (predict u).risk_score =
      rule1 u + rule2 u + rule3 u + rule4 u + rule5 u + rule6 u + rule7 u ∧
    (predict u).risk_score = l.sum := by
  have hsum : (ruleContributions u).sum =
      rule1 u + rule2 u + rule3 u + rule4 u + rule5 u + rule6 u + rule7 u := by
    simp [ruleContributions]
    ring
  constructor
  · rw [predict_risk_score, predictScore_eq_sum]
  · rw [predict_risk_score, predictScore_eq_sum, hl.sum_eq, hsum]

/-- Witness for C1 at the concrete URL "http://a.b" with the rule
contributions permuted into reverse order. -/
theorem predict_riskScore_rule_sum_witness :
    ([rule7 "http://a.b", rule6 "http://a.b", rule5 "http://a.b", rule4 "http://a.b",
      rule3 "http://a.b", rule2 "http://a.b", rule1 "http://a.b"].Perm
        (ruleContributions "http://a.b")) ∧
    ((predict "http://a.b").risk_score =
        rule1 "http://a.b" + rule2 "http://a.b" + rule3 "http://a.b" + rule4 "http://a.b" +
        rule5 "http://a.b" + rule6 "http://a.b" + rule7 "http://a.b" ∧
     (predict "http://a.b").risk_score =
        [rule7 "http://a.b", rule6 "http://a.b", rule5 "http://a.b", rule4 "http://a.b",
         rule3 "http://a.b", rule2 "http://a.b", rule1 "http://a.b"].sum) :=
  ⟨by decide, predict_riskScore_rule_sum "http://a.b" _ (by decide)⟩

/-- Claim C2: for every URL string `u`, `isMalicious = (riskScore > 1)`,
and the risk level is HIGH ("ALTO") exactly when the score exceeds 3,
MEDIUM ("MEDIO") exactly when it is in (1, 3], and LOW ("BAJO") exactly
when it is at most 1. -/
theorem predict_malicious_iff_riskLevel (u : String) :
    (predict u).is_malicious = decide ((predict u).risk_score > 1) ∧
    ((predict u).risk_level = "ALTO" ↔ (predict u).risk_score > 3) ∧
    ((predict u).risk_level = "MEDIO" ↔
      (1 < (predict u).risk_score ∧ (predict u).risk_score ≤ 3)) ∧
    ((predict u).risk_level = "BAJO" ↔ (predict u).risk_score ≤ 1) := by
  rw [predict_is_malicious, predict_risk_level, predict_risk_score]
  refine ⟨rfl, ?_, ?_, ?_⟩ <;>
    by_cases h3 : predictScore u > 3 <;>
    by_cases h1 : predictScore u > 1 <;>
    simp [h3, h1] <;>
    omega

/-- Claim C3: the confidence returned by `predict` is exactly
`clamp(0.7 + riskScore*0.05, 0.6, 0.98)` (the source's 3-decimal rounding
is the identity on these values); for integer scores in [−10, 10] the
clamp lies within [0.6, 0.98], and it is monotone non-decreasing in the
score. -/
theorem predict_confidence_clamped (u : String) (s : Int)
    (hlo : -10 ≤ s) (hhi : s ≤ 10) :
    (predict u).confidence = confFromScore (predict u).risk_score ∧
    0.6 ≤ confFromScore s ∧ confFromScore s ≤ 0.98 ∧ Monotone confFromScore := by
  refine ⟨?_, confFromScore_ge s, confFromScore_le s, confFromScore_mono⟩
  rw [predict_confidence_eq, predict_risk_score, round3_confFromScore]

/-- Witness for C3 at the concrete URL "https://example.com" and score 0. -/
theorem predict_confidence_clamped_witness :
    ((-10 : ℤ) ≤ 0 ∧ (0 : ℤ) ≤ 10) ∧
    ((predict "https://example.com").confidence =
        confFromScore (predict "https://example.com").risk_score ∧
     0.6 ≤ confFromScore 0 ∧ confFromScore 0 ≤ 0.98 ∧ Monotone confFromScore) :=
  ⟨⟨by decide, by decide⟩,
   predict_confidence_clamped "https://example.com" 0 (by decide) (by decide)⟩

/-- Claim C4: for every URL string `u`, the two probabilities returned by
`predict` sum to exactly 1 (hence within the 0.001 tolerance), with
`probabilityMalicious` equal to the confidence when malicious and to its
complement otherwise, and `probabilityLegitimate` the complement. -/
theorem predict_probabilities_complement (u : String) :
    (predict u).probability_malicious + (predict u).probability_legitimate = 1 ∧
    |(predict u).probability_malicious + (predict u).probability_legitimate - 1| ≤ 0.001 ∧
    (predict u).probability_malicious =
      (if (predict u).is_malicious then (predict u).confidence
       else 1 - (predict u).confidence) ∧
    (predict u).probability_legitimate = 1 - (predict u).probability_malicious := by
  rw [predict_prob_mal, predict_prob_leg, predict_is_malicious, predict_confidence_eq]
  have hzero : ∀ x : ℚ, x + (1 - x) - 1 = 0 := fun x => by ring
  by_cases h : predictScore u > 1 <;>
    simp only [h, decide_True, decide_False, if_true, if_false, Bool.false_eq_true,
      ite_true, ite_false] <;>
    rw [round3_confFromScore, round3_one_sub_confFromScore] <;>
    refine ⟨by ring, ?_, by simp, by ring⟩
  · rw [hzero]
    norm_num
  · rw [show (1 : ℚ) - confFromScore (predictScore u) + confFromScore (predictScore u) - 1 = 0 by
        ring]
    norm_num

/-- Claim C5: `predict` is a total function of the URL string alone (the
embedding is a plain Lean function with no `Option`/`Except` escape, no
state and no effect arguments): every string, the empty one included, is
mapped to a `Classification` record that carries the input unmodified. -/
theorem predict_total_function (u : String) :
    ∃ c : Classification, predict u = c ∧ c.url = u :=
  ⟨predict u, rfl, rfl⟩

/-- Counterexample to C6 as stated: "phishing.example.com" contains
"phishing" and does not start with "https://", yet its score is 2, not
≥ 4, and its risk level is MEDIUM, not HIGH — the trusted-domain rule
subtracts 2 because the URL also contains "example.com". -/
theorem predict_phishing_http_cex :
    strContains "phishing.example.com" "phishing" = true ∧
    startswith "phishing.example.com" "https://" = false ∧
    (predict "phishing.example.com").risk_score = 2 ∧
    ¬(4 ≤ (predict "phishing.example.com").risk_score) ∧
    (predict "phishing.example.com").risk_level = "MEDIO" ∧
    (predict "phishing.example.com").risk_level ≠ "ALTO" := by
  decide

/-- Claim C6 (amended): for every URL string that contains "phishing",
does not start with "https://", and whose lower-cased form contains none
of the trusted-domain tokens, `predict` yields a risk score of at least
4, `isMalicious = true` and risk level HIGH ("ALTO"). -/
theorem predict_phishing_noTrusted_high (u : String)
    (h1 : strContains u "phishing" = true)
    (h2 : startswith u "https://" = false)
    (h3 : ∀ w ∈ trustedTokens, strContains (lowerString u) w = false) :
    4 ≤ (predict u).risk_score ∧
    (predict u).is_malicious = true ∧
    (predict u).risk_level = "ALTO" := by
  have hlow : strContains (lowerString u) "phishing" = true :=
    strContains_toLower u "phishing" (by decide) h1
  have hr1 : rule1 u = 3 := by
    have hc : (suspiciousTokens.any fun w => strContains (lowerString u) w) = true :=
      List.any_eq_true.mpr ⟨"phishing", by simp [suspiciousTokens], hlow⟩
    simp [rule1, hc]
  have hr2 : rule2 u = 0 := by
    have hc : (trustedTokens.any fun w => strContains (lowerString u) w) = false := by
      rw [List.any_eq_false]
      intro w hw
      simp [h3 w hw]
    simp [rule2, hc]
  have hr3 : rule3 u = 1 := by
    simp [rule3, h2]
  have hr4 : 0 ≤ rule4 u := by
    unfold rule4
    split <;> omega
  have hr5 : 0 ≤ rule5 u := by
    unfold rule5
    split <;> omega
  have hr6 : 0 ≤ rule6 u := by
    unfold rule6
    split <;> omega
  have hr7 : 0 ≤ rule7 u := by
    unfold rule7
    split <;> omega
  have hsum := predictScore_eq_sum u
  have hscore : 4 ≤ predictScore u := by omega
  refine ⟨?_, ?_, ?_⟩
  · rw [predict_risk_score]
    exact hscore
  · rw [predict_is_malicious]
    simp
    omega
  · rw [predict_risk_level, if_pos (by omega : predictScore u > 3)]

/-- Witness for the amended C6 at the concrete URL "phishing.net". -/
theorem predict_phishing_noTrusted_high_witness :
    (strContains "phishing.net" "phishing" = true ∧
     startswith "phishing.net" "https://" = false ∧
     ∀ w ∈ trustedTokens, strContains (lowerString "phishing.net") w = false) ∧
    (4 ≤ (predict "phishing.net").risk_score ∧
     (predict "phishing.net").is_malicious = true ∧
     (predict "phishing.net").risk_level = "ALTO") :=
  ⟨⟨by decide, by decide, by decide⟩,
   predict_phishing_noTrusted_high "phishing.net" (by decide) (by decide) (by decide)⟩

/-- Claim C7: `predict("http://example.com@evil-phishing.ru/a/b/c/d/e/f")`
triggers rule 1 (+3, suspicious token), rule 3 (+1, no https), rule 5
(+1, more than 5 slashes) and rule 6 (+2, '@'); its score is exactly the
§4.1 rule-table sum — which also includes rule 2's −2 for the contained
"example.com" — namely 5, with `isMalicious = true` and risk level HIGH
("ALTO"). -/
theorem predict_concrete_scenario :
    (suspiciousTokens.any fun w =>
      strContains (lowerString "http://example.com@evil-phishing.ru/a/b/c/d/e/f") w) = true ∧
    startswith "http://example.com@evil-phishing.ru/a/b/c/d/e/f" "https://" = false ∧
    "http://example.com@evil-phishing.ru/a/b/c/d/e/f".data.count '/' > 5 ∧
    "http://example.com@evil-phishing.ru/a/b/c/d/e/f".data.contains '@' = true ∧
    (predict "http://example.com@evil-phishing.ru/a/b/c/d/e/f").risk_score =
      rule1 "http://example.com@evil-phishing.ru/a/b/c/d/e/f" +
      rule2 "http://example.com@evil-phishing.ru/a/b/c/d/e/f" +
      rule3 "http://example.com@evil-phishing.ru/a/b/c/d/e/f" +
      rule4 "http://example.com@evil-phishing.ru/a/b/c/d/e/f" +
      rule5 "http://example.com@evil-phishing.ru/a/b/c/d/e/f" +
      rule6 "http://example.com@evil-phishing.ru/a/b/c/d/e/f" +
      rule7 "http://example.com@evil-phishing.ru/a/b/c/d/e/f" ∧
    (predict "http://example.com@evil-phishing.ru/a/b/c/d/e/f").risk_score = 5 ∧
    (predict "http://example.com@evil-phishing.ru/a/b/c/d/e/f").is_malicious = true ∧
    (predict "http://example.com@evil-phishing.ru/a/b/c/d/e/f").risk_level = "ALTO" := by
  decide

/-- Claim C8: retraining with a kernel name outside
{rbf, linear, poly, sigmoid} leaves the stored metrics unchanged and
returns the unchanged quadruple instead of raising (silent no-op): both
the model state reached through the train handler and the value returned
by `update_metrics` coincide with the pre-call `get_metrics`. -/
theorem retrain_unknown_kernel_noop (m : Model) (j : Metrics) (k : String) (c now : ℚ)
    (h : k ∉ (["rbf", "linear", "poly", "sigmoid"] : List String)) :
    get_metrics (train_model m k c j now).1 = get_metrics m ∧
    (train_model m k c j now).2.2.metrics = get_metrics m ∧
    (update_metrics m k j).1 = m ∧
    (update_metrics m k j).2 = m.metrics := by
  have hl := lookup_none_of_unknown k h
  simp [train_model, update_metrics, get_metrics, hl]

/-- Witness for C8 at the concrete kernel name "unknown-kernel". -/
theorem retrain_unknown_kernel_noop_witness :
    ("unknown-kernel" ∉ (["rbf", "linear", "poly", "sigmoid"] : List String)) ∧
    (get_metrics (train_model initModel "unknown-kernel" 1 ⟨0, 0, 0, 0⟩ 0).1 =
        get_metrics initModel ∧
     (train_model initModel "unknown-kernel" 1 ⟨0, 0, 0, 0⟩ 0).2.2.metrics =
        get_metrics initModel ∧
     (update_metrics initModel "unknown-kernel" ⟨0, 0, 0, 0⟩).1 = initModel ∧
     (update_metrics initModel "unknown-kernel" ⟨0, 0, 0, 0⟩).2 = initModel.metrics) :=
  ⟨by decide,
   retrain_unknown_kernel_noop initModel ⟨0, 0, 0, 0⟩ "unknown-kernel" 1 0 (by decide)⟩

/-- Claim C9: retraining with a kernel name in
{rbf, linear, poly, sigmoid} replaces the metrics with that kernel's
baseline quadruple perturbed field-wise by the jitter and clamped
field-wise to [0.7, 0.99]; consequently every resulting field lies within
[0.7, 0.99]. -/
theorem retrain_known_kernel_jitter_clamp (m : Model) (j : Metrics) (k : String)
    (hk : k = "rbf" ∨ k = "linear" ∨ k = "poly" ∨ k = "sigmoid")
    (hj : -0.02 ≤ j.accuracy ∧ j.accuracy ≤ 0.02 ∧
          -0.02 ≤ j.precision ∧ j.precision ≤ 0.02 ∧
          -0.02 ≤ j.recall' ∧ j.recall' ≤ 0.02 ∧
          -0.02 ≤ j.f1_score ∧ j.f1_score ≤ 0.02) :
    ∃ b : Metrics, base_metrics.lookup k = some b ∧
      (update_metrics m k j).1.metrics = clampAll (addJitter b j) ∧
      (update_metrics m k j).2 = clampAll (addJitter b j) ∧
      0.7 ≤ (update_metrics m k j).2.accuracy ∧ (update_metrics m k j).2.accuracy ≤ 0.99 ∧
      0.7 ≤ (update_metrics m k j).2.precision ∧ (update_metrics m k j).2.precision ≤ 0.99 ∧
      0.7 ≤ (update_metrics m k j).2.recall' ∧ (update_metrics m k j).2.recall' ≤ 0.99 ∧
      0.7 ≤ (update_metrics m k j).2.f1_score ∧ (update_metrics m k j).2.f1_score ≤ 0.99 := by
  have hb : ∃ b : Metrics, base_metrics.lookup k = some b := by
    rcases hk with rfl | rfl | rfl | rfl
    · exact ⟨_, lookup_rbf⟩
    · exact ⟨_, lookup_linear⟩
    · exact ⟨_, lookup_poly⟩
    · exact ⟨_, lookup_sigmoid⟩
  obtain ⟨b, hb⟩ := hb
  have hu : (update_metrics m k j).1.metrics = clampAll (addJitter b j) ∧
      (update_metrics m k j).2 = clampAll (addJitter b j) := by
    simp [update_metrics, hb]
  refine ⟨b, hb, hu.1, hu.2, ?_, ?_, ?_, ?_, ?_, ?_, ?_, ?_⟩ <;> rw [hu.2]
  · exact (clampMetric_bounds _).1
  · exact (clampMetric_bounds _).2
  · exact (clampMetric_bounds _).1
  · exact (clampMetric_bounds _).2
  · exact (clampMetric_bounds _).1
  · exact (clampMetric_bounds _).2
  · exact (clampMetric_bounds _).1
  · exact (clampMetric_bounds _).2

/-- Witness for C9 at kernel "rbf" with the all-zero jitter. -/
theorem retrain_known_kernel_jitter_clamp_witness :
    (("rbf" = "rbf" ∨ "rbf" = "linear" ∨ "rbf" = "poly" ∨ "rbf" = "sigmoid") ∧
     (-0.02 ≤ (0 : ℚ) ∧ (0 : ℚ) ≤ 0.02)) ∧
    (∃ b : Metrics, base_metrics.lookup "rbf" = some b ∧
      (update_metrics initModel "rbf" ⟨0, 0, 0, 0⟩).1.metrics =
        clampAll (addJitter b ⟨0, 0, 0, 0⟩) ∧
      (update_metrics initModel "rbf" ⟨0, 0, 0, 0⟩).2 =
        clampAll (addJitter b ⟨0, 0, 0, 0⟩) ∧
      0.7 ≤ (update_metrics initModel "rbf" ⟨0, 0, 0, 0⟩).2.accuracy ∧
      (update_metrics initModel "rbf" ⟨0, 0, 0, 0⟩).2.accuracy ≤ 0.99 ∧
      0.7 ≤ (update_metrics initModel "rbf" ⟨0, 0, 0, 0⟩).2.precision ∧
      (update_metrics initModel "rbf" ⟨0, 0, 0, 0⟩).2.precision ≤ 0.99 ∧
      0.7 ≤ (update_metrics initModel "rbf" ⟨0, 0, 0, 0⟩).2.recall' ∧
      (update_metrics initModel "rbf" ⟨0, 0, 0, 0⟩).2.recall' ≤ 0.99 ∧
      0.7 ≤ (update_metrics initModel "rbf" ⟨0, 0, 0, 0⟩).2.f1_score ∧
      (update_metrics initModel "rbf" ⟨0, 0, 0, 0⟩).2.f1_score ≤ 0.99) :=
  ⟨⟨Or.inl rfl, by norm_num, by norm_num⟩,
   retrain_known_kernel_jitter_clamp initModel ⟨0, 0, 0, 0⟩ "rbf" (Or.inl rfl) (by norm_num)⟩

/-- Claim C10: a successful train call sets the model's kernel name to
the requested string unconditionally — also for names outside the fixed
set — and persists a full state record (kernel, C, metrics, timestamp)
containing it, while for unrecognized names the metrics quadruple itself
stays unchanged. -/
theorem train_sets_kernel_and_persists (m : Model) (k : String) (c now : ℚ) (j : Metrics) :
    (train_model m k c j now).1.kernel = k ∧
    (train_model m k c j now).2.1.kernel = k ∧
    (train_model m k c j now).2.1.C = c ∧
    (train_model m k c j now).2.1.metrics = (train_model m k c j now).1.metrics ∧
    (train_model m k c j now).2.1.timestamp = now ∧
    ((k ∉ (["rbf", "linear", "poly", "sigmoid"] : List String)) →
      (train_model m k c j now).1.metrics = m.metrics) := by
  refine ⟨rfl, rfl, rfl, ?_, rfl, ?_⟩
  · cases h : base_metrics.lookup k <;> simp [train_model, update_metrics, h]
  · intro h
    simp [train_model, update_metrics, lookup_none_of_unknown k h]

/-- Witness for C10 at the concrete kernel name "unknown-kernel". -/
theorem train_sets_kernel_and_persists_witness :
    (train_model initModel "unknown-kernel" 1 ⟨0, 0, 0, 0⟩ 0).1.kernel = "unknown-kernel" ∧
    (train_model initModel "unknown-kernel" 1 ⟨0, 0, 0, 0⟩ 0).2.1.kernel = "unknown-kernel" ∧
    (train_model initModel "unknown-kernel" 1 ⟨0, 0, 0, 0⟩ 0).1.metrics = initModel.metrics := by
  have h := train_sets_kernel_and_persists initModel "unknown-kernel" 1 0 ⟨0, 0, 0, 0⟩
  exact ⟨h.1, h.2.1, h.2.2.2.2.2 (by decide)⟩

end UrlDetector
